import Mathlib

/-!
Shallow embedding of `streamlit_trauma_mods.py`, a single-page Streamlit
risk calculator: ten clinical form inputs are assembled into a fixed-order
one-row feature record, a pre-trained random-forest model is asked for
`predict_proba`, the resulting probability is discretized into three risk
tiers at thresholds 0.2 and 0.5, and a SHAP attribution plot is rendered.

Scalar values (ages, temperatures, probabilities, SHAP values) are embedded
as rationals.  The opaque library model is a record of fallible functions
(`Except String` stands for a raised Python exception carrying its message).
Streamlit rendering calls are reified as a list of `RenderEvent`s, and calls
into the inference/attribution libraries are reified as a `LibCall` trace, so
that claims about "what is rendered" and "how often the model is invoked"
become statements about these lists.
-/

namespace TraumaMods

/-- The state of the ten input widgets in the left column (source lines
78-110).  Numeric widgets carry their numeric value; the three
`st.selectbox` widgets carry the selected option string, which the widget
restricts to `"No"` or `"Yes"`. -/
structure FormInputs where
  age : ℚ
  temp : ℚ
  sbp : ℚ
  platelets : ℚ
  bun : ℚ
  riss : ℚ
  sofa : ℚ
  renal_input : String
  inv_line_input : String
  mech_vent_input : String
deriving DecidableEq

/-- Source line 102: `renal = 1 if renal_input == "Yes" else 0`. -/
def renal (f : FormInputs) : ℚ := if f.renal_input = "Yes" then 1 else 0

/-- Source line 106: `invasive_line = 1 if inv_line_input == "Yes" else 0`. -/
def invasive_line (f : FormInputs) : ℚ := if f.inv_line_input = "Yes" then 1 else 0

/-- Source line 110: `mech_vent = 1 if mech_vent_input == "Yes" else 0`. -/
def mech_vent (f : FormInputs) : ℚ := if f.mech_vent_input = "Yes" then 1 else 0

/-- The single-row `pd.DataFrame` built at source lines 124-146: a list of
(column name, value) pairs in the exact column order of the source. -/
def input_data (f : FormInputs) : List (String × ℚ) :=
  [("platelets_min", f.platelets),
   ("riss", f.riss),
   ("sbp_min", f.sbp),
   ("bun_max", f.bun),
   ("temperature_max", f.temp),
   ("admission_age", f.age),
   ("renal", renal f),
   ("invasive_line_1stday", invasive_line f),
   ("mechvent", mech_vent f),
   ("sofa_1stday", f.sofa)]

/-- The `display_names` dictionary of source lines 149-160, as the column
renaming it is used for: listed columns map to their display name, any other
column is left unchanged (the semantics of `DataFrame.rename`). -/
def display_names (c : String) : String :=
  if c = "platelets_min" then "Platelet Count"
  else if c = "riss" then "RISS"
  else if c = "sbp_min" then "Systolic BP"
  else if c = "bun_max" then "BUN"
  else if c = "temperature_max" then "Temperature"
  else if c = "admission_age" then "Age"
  else if c = "renal" then "Renal Hx"
  else if c = "invasive_line_1stday" then "Inv. Line"
  else if c = "mechvent" then "Mech. Vent"
  else if c = "sofa_1stday" then "SOFA Score"
  else c

/-- Source line 216, `input_data_display = input_data.rename(columns=display_names)`: a fresh record with renamed columns; `input_data` itself is not
touched. -/
def input_data_display (f : FormInputs) : List (String × ℚ) :=
  (input_data f).map (fun cv => (display_names cv.1, cv.2))

/-- The `color` local of source lines 171-177: `"green"` unless
`prediction_prob >= 0.5` (then `"red"`) or `prediction_prob >= 0.2`
(then `"#ffcc00"`). -/
def color (p : ℚ) : String :=
  if p ≥ 0.5 then "red"
  else if p ≥ 0.2 then "#ffcc00"
  else "green"

/-- The `risk_label` local of source lines 172-178: `"Low Risk"` unless
`prediction_prob >= 0.5` (then `"High Risk"`) or `prediction_prob >= 0.2`
(then `"Moderate Risk"`). -/
def risk_label (p : ℚ) : String :=
  if p ≥ 0.5 then "High Risk"
  else if p ≥ 0.2 then "Moderate Risk"
  else "Low Risk"

/-- The output of `explainer.shap_values(input_data)` (source line 206):
either a single samples-by-features array, or, for binary classifiers, a
per-class list of such arrays (the `isinstance(shap_values, list)` test at
source line 210). -/
inductive ShapOut where
  | single (v : List (List ℚ))
  | perClass (v : List (List (List ℚ)))
deriving DecidableEq

/-- The opaque pre-trained model together with the attribution library
entry points used on it.  `predict_proba` returns the class-probability
matrix (rows = samples, columns = classes) or raises; `shap_values` stands
for `shap.TreeExplainer(model)` followed by `explainer.shap_values(x)`,
either of which may raise; `expected_value` is the `expected_value`
array of the explainer, indexed at source line 221. -/
structure Model where
  predict_proba : List (String × ℚ) → Except String (List (List ℚ))
  shap_values : List (String × ℚ) → Except String ShapOut
  expected_value : List ℚ

/-- One reified Streamlit rendering call in the right column. -/
inductive RenderEvent where
  | subheader (s : String)
  | stInfo (s : String)
  | stSuccess (s : String)
  | stWarning (s : String)
  | stError (s : String)
  | stWrite (s : String)
  | resultPanel (color label : String) (prob : ℚ)
  | markdownRule
  | shapWaterfall (vals : List ℚ) (base : ℚ) (data : List (String × ℚ))
  | pyplot
deriving DecidableEq

/-- One reified call into the inference or attribution library, with the
feature record it received. -/
inductive LibCall where
  | predictProba (x : List (String × ℚ))
  | shapValues (x : List (String × ℚ))
deriving DecidableEq

/-- Recognizer for `predict_proba` calls in a `LibCall` trace. -/
def LibCall.isPredictProba : LibCall → Bool
  | .predictProba _ => true
  | .shapValues _ => false

/-- The two rendering calls of the `except` handler at source lines
239-241: the formatted error message and the debug hint. -/
def excEvents (e : String) : List RenderEvent :=
  [.stError ("An error occurred during prediction: " ++ e),
   .stWrite "Debug info - Shape mismatch or feature name mismatch likely."]

/-- The threshold advisory of source lines 192-197: `st.success` when
`prediction_prob < 0.2`, `st.warning` when `prediction_prob < 0.5`,
`st.error` otherwise. -/
def threshold_message (p : ℚ) : RenderEvent :=
  if p < 0.2 then
    .stSuccess "The model predicts a low probability of developing MODS."
  else if p < 0.5 then
    .stWarning "The model predicts a moderate probability. Clinical monitoring advised."
  else
    .stError "The model predicts a high probability. Intensive monitoring required."

/-- The rendering calls of source lines 168-201, emitted once
`prediction_prob` has been obtained: the result subheader, the colored
result panel, the threshold advisory, and the SHAP section header. -/
def resultEvents (p : ℚ) : List RenderEvent :=
  [.subheader "Prediction Result",
   .resultPanel (color p) (risk_label p) p,
   threshold_message p,
   .markdownRule,
   .subheader "Model Explanation (SHAP)"]

/-- The body of the `if predict_btn and model is not None:` branch (source
lines 119-241), as the pair (rendered events, library-call trace):
`prediction_prob = model.predict_proba(input_data)[0, 1]` (the `[0, 1]`
indexing is the `Option.bind` of the two `get?`s, a failure raising an
exception exactly as numpy would), then the result panel and advisory, then
the SHAP section: `shap_values` on the same `input_data`, class selection
(`shap_values[1]` when a per-class list), the explanatory `st.write`, the
`Explanation` built from `shap_val_target[0]`, `expected_value[1]` and the
renamed `input_data_display`, and the waterfall plot.  Any exception lands
in the `except` handler of source lines 239-241, which appends `excEvents`
after whatever had already been rendered. -/
def predictionBranch (m : Model) (f : FormInputs) : List RenderEvent × List LibCall :=
  let x := input_data f
  match m.predict_proba x with
  | .error e => (excEvents e, [.predictProba x])
  | .ok probs =>
    match (probs[0]?).bind (fun row => row[1]?) with
    | none => (excEvents "IndexError", [.predictProba x])
    | some p =>
      match m.shap_values x with
      | .error e => (resultEvents p ++ excEvents e, [.predictProba x, .shapValues x])
      | .ok so =>
        let shap_val_target : Option (List (List ℚ)) :=
          match so with
          | .perClass l => l[1]?
          | .single v => some v
        match shap_val_target with
        | none =>
          (resultEvents p ++ excEvents "IndexError", [.predictProba x, .shapValues x])
        | some target =>
          let evts := resultEvents p ++ [.stWrite "**Why did the model make this prediction?**"]
          match target[0]?, m.expected_value[1]? with
          | some vals, some base =>
            (evts ++ [.shapWaterfall vals base (input_data_display f), .pyplot],
             [.predictProba x, .shapValues x])
          | _, _ =>
            (evts ++ excEvents "IndexError", [.predictProba x, .shapValues x])

/-- The whole `with col2:` block (source lines 118-244): the prediction
branch runs only when the button was pressed and the model loaded; when the
button was not pressed the informational hint is shown; when the button was
pressed but the model is `None`, nothing is rendered. -/
def col2Render (model : Option Model) (predict_btn : Bool) (f : FormInputs) :
    List RenderEvent × List LibCall :=
  match predict_btn, model with
  | true, some m => predictionBranch m f
  | true, none => ([], [])
  | false, _ =>
    ([.stInfo "👈 Adjust patient parameters on the left and click \x27Predict\x27."], [])

/-- The probability shown in the result panel of a rendered-event list, if
any: the `prediction_prob` of the first `resultPanel` event. -/
def displayedProb : List RenderEvent → Option ℚ
  | [] => none
  | .resultPanel _ _ p :: _ => some p
  | _ :: rest => displayedProb rest

/-- The body of `load_model` (source lines 47-54), without the
`@st.cache_resource` decoration: `disk` is the loadable content of
`rf_mods_model.joblib` (`none` when the file is missing, in which case
`joblib.load` raises `FileNotFoundError`, caught to render `st.error` and
return `None`). -/
def load_model (disk : Option Model) : Option Model × List RenderEvent :=
  match disk with
  | some m => (some m, [])
  | none =>
    (none,
     [.stError "Error: Model file \x27rf_model_new.joblib\x27 not found. Please upload the model."])

/-- The function `load_model` as decorated with `@st.cache_resource` (source line 46),
run over a sequence of script reruns whose disk contents may change: on the
first evaluation the body runs and its result is stored; every later
evaluation returns the stored result without running the body. -/
def cachedRuns : List (Option Model) → Option (Option Model) → List (Option Model)
  | [], _ => []
  | _ :: rest, some v => v :: cachedRuns rest (some v)
  | disk :: rest, none =>
    let v := (load_model disk).1
    v :: cachedRuns rest (some v)

/-- The same sequence of reruns for an undecorated `load_model` that
reloads from disk on every evaluation. -/
def uncachedRuns (disks : List (Option Model)) : List (Option Model) :=
  disks.map (fun d => (load_model d).1)

/-! ### Concrete sample data, used to witness the claim theorems -/

/-- A concrete form state: the widget default values, with Yes selected for
renal history, No for invasive line, and Yes for mechanical ventilation. -/
def fDemo : FormInputs :=
  { age := 50, temp := 37, sbp := 110, platelets := 200, bun := 20, riss := 15,
    sofa := 5, renal_input := "Yes", inv_line_input := "No", mech_vent_input := "Yes" }

/-- A concrete well-behaved model: `predict_proba` answers `[[0.7, 0.3]]`
for every sample and the attribution call answers a per-class pair of
one-sample arrays. -/
def mDemo : Model :=
  { predict_proba := fun _ => .ok [[0.7, 0.3]],
    shap_values := fun _ =>
      .ok (.perClass [[[0, 0, 0, 0, 0, 0, 0, 0, 0, 0]],
                      [[0.1, 0, 0, 0, 0, 0, 0, 0, 0, 0]]]),
    expected_value := [0.7, 0.3] }

/-- A concrete failing model: `predict_proba` raises on every sample. -/
def mFail : Model :=
  { predict_proba := fun _ => .error "ValueError",
    shap_values := fun _ => .error "ValueError",
    expected_value := [] }

/-! ### Helper lemmas on the tier discretization -/

theorem risk_label_low_iff (p : ℚ) : risk_label p = "Low Risk" ↔ p < 0.2 := by
  unfold risk_label
  split_ifs with h1 h2 <;> constructor <;> intro h <;>
    first
      | rfl
      | linarith
      | exact absurd h (by decide)
      | (exfalso; linarith)

theorem risk_label_moderate_iff (p : ℚ) :
    risk_label p = "Moderate Risk" ↔ 0.2 ≤ p ∧ p < 0.5 := by
  unfold risk_label
  split_ifs with h1 h2 <;> constructor <;> intro h <;>
    first
      | rfl
      | exact ⟨by linarith, by linarith⟩
      | exact absurd h (by decide)
      | (exfalso; linarith [h.1, h.2])

theorem risk_label_high_iff (p : ℚ) : risk_label p = "High Risk" ↔ 0.5 ≤ p := by
  unfold risk_label
  split_ifs with h1 h2 <;> constructor <;> intro h <;>
    first
      | rfl
      | linarith
      | exact absurd h (by decide)
      | (exfalso; linarith)

theorem color_green_iff (p : ℚ) : color p = "green" ↔ p < 0.2 := by
  unfold color
  split_ifs with h1 h2 <;> constructor <;> intro h <;>
    first
      | rfl
      | linarith
      | exact absurd h (by decide)
      | (exfalso; linarith)

theorem color_yellow_iff (p : ℚ) : color p = "#ffcc00" ↔ 0.2 ≤ p ∧ p < 0.5 := by
  unfold color
  split_ifs with h1 h2 <;> constructor <;> intro h <;>
    first
      | rfl
      | exact ⟨by linarith, by linarith⟩
      | exact absurd h (by decide)
      | (exfalso; linarith [h.1, h.2])

theorem color_red_iff (p : ℚ) : color p = "red" ↔ 0.5 ≤ p := by
  unfold color
  split_ifs with h1 h2 <;> constructor <;> intro h <;>
    first
      | rfl
      | linarith
      | exact absurd h (by decide)
      | (exfalso; linarith)

theorem threshold_message_success_iff (p : ℚ) :
    threshold_message p =
      .stSuccess "The model predicts a low probability of developing MODS." ↔ p < 0.2 := by
  unfold threshold_message
  split_ifs with h1 h2 <;> constructor <;> intro h <;>
    first
      | rfl
      | linarith
      | exact absurd h (by decide)
      | (exfalso; linarith)

theorem threshold_message_warning_iff (p : ℚ) :
    threshold_message p =
      .stWarning "The model predicts a moderate probability. Clinical monitoring advised." ↔
      0.2 ≤ p ∧ p < 0.5 := by
  unfold threshold_message
  split_ifs with h1 h2 <;> constructor <;> intro h <;>
    first
      | rfl
      | exact ⟨by linarith, by linarith⟩
      | exact absurd h (by decide)
      | (exfalso; linarith [h.1, h.2])

theorem threshold_message_error_iff (p : ℚ) :
    threshold_message p =
      .stError "The model predicts a high probability. Intensive monitoring required." ↔
      0.5 ≤ p := by
  unfold threshold_message
  split_ifs with h1 h2 <;> constructor <;> intro h <;>
    first
      | rfl
      | linarith
      | exact absurd h (by decide)
      | (exfalso; linarith)

/-! ### Helper lemmas on the prediction branch -/

@[simp]
theorem displayedProb_nil : displayedProb [] = none := rfl

@[simp]
theorem displayedProb_cons_resultPanel (c l : String) (p : ℚ) (rest : List RenderEvent) :
    displayedProb (.resultPanel c l p :: rest) = some p := rfl

@[simp]
theorem displayedProb_cons_subheader (s : String) (rest : List RenderEvent) :
    displayedProb (.subheader s :: rest) = displayedProb rest := rfl

@[simp]
theorem displayedProb_cons_stError (s : String) (rest : List RenderEvent) :
    displayedProb (.stError s :: rest) = displayedProb rest := rfl

@[simp]
theorem displayedProb_cons_stWrite (s : String) (rest : List RenderEvent) :
    displayedProb (.stWrite s :: rest) = displayedProb rest := rfl

/-- No SHAP waterfall plot is rendered among the result-panel events. -/
theorem shapWaterfall_not_mem_resultEvents (p : ℚ) (vals : List ℚ) (base : ℚ)
    (data : List (String × ℚ)) :
    RenderEvent.shapWaterfall vals base data ∉ resultEvents p := by
  unfold resultEvents threshold_message
  split_ifs <;> simp

/-- Structural case analysis of the prediction branch: either
`predict_proba` raises and only the handler renders, or the `[0, 1]`
indexing fails and only the handler renders, or a probability `p` is
obtained, the result events for `p` are rendered followed by the SHAP
section, and both library calls received `input_data`. -/
theorem predictionBranch_spec (m : Model) (f : FormInputs) :
    (∃ e, m.predict_proba (input_data f) = .error e ∧
        predictionBranch m f = (excEvents e, [.predictProba (input_data f)])) ∨
    (∃ probs, m.predict_proba (input_data f) = .ok probs ∧
        (probs[0]?).bind (fun row => row[1]?) = none ∧
        predictionBranch m f = (excEvents "IndexError", [.predictProba (input_data f)])) ∨
    (∃ probs p rest, m.predict_proba (input_data f) = .ok probs ∧
        (probs[0]?).bind (fun row => row[1]?) = some p ∧
        predictionBranch m f =
          (resultEvents p ++ rest,
           [.predictProba (input_data f), .shapValues (input_data f)]) ∧
        (∀ e, m.shap_values (input_data f) = .error e → rest = excEvents e) ∧
        (∀ vals base data, RenderEvent.shapWaterfall vals base data ∈ rest →
            data = input_data_display f)) := by
  rcases hE : m.predict_proba (input_data f) with e | probs
  · exact Or.inl ⟨e, rfl, by simp [predictionBranch, hE]⟩
  · rcases hI : (probs[0]?).bind (fun row => row[1]?) with _ | p
    · exact Or.inr (Or.inl ⟨probs, rfl, hI, by simp [predictionBranch, hE, hI]⟩)
    · refine Or.inr (Or.inr ?_)
      rcases hS : m.shap_values (input_data f) with e | so
      · refine ⟨probs, p, excEvents e, rfl, hI, by simp [predictionBranch, hE, hI, hS],
          fun e' he' => ?_, fun vals base data hmem => ?_⟩
        · injection he' with h
          rw [h]
        · simp [excEvents] at hmem
      · cases so with
        | single v =>
          rcases hT : v[0]? with _ | vals0
          · refine ⟨probs, p, RenderEvent.stWrite "**Why did the model make this prediction?**"
                :: excEvents "IndexError", rfl, hI,
              by simp [predictionBranch, hE, hI, hS, hT],
              fun e' he' => by simp at he', fun vals base data hmem => ?_⟩
            simp [excEvents] at hmem
          · rcases hB : m.expected_value[1]? with _ | base0
            · refine ⟨probs, p, RenderEvent.stWrite "**Why did the model make this prediction?**"
                  :: excEvents "IndexError", rfl, hI,
                by simp [predictionBranch, hE, hI, hS, hT, hB],
                fun e' he' => by simp at he', fun vals base data hmem => ?_⟩
              simp [excEvents] at hmem
            · refine ⟨probs, p,
                [.stWrite "**Why did the model make this prediction?**",
                 .shapWaterfall vals0 base0 (input_data_display f), .pyplot], rfl, hI,
                by simp [predictionBranch, hE, hI, hS, hT, hB],
                fun e' he' => by simp at he', fun vals base data hmem => ?_⟩
              simp only [List.mem_cons, List.not_mem_nil, or_false] at hmem
              rcases hmem with h | h | h
              · exact absurd h (by simp)
              · exact (RenderEvent.shapWaterfall.injEq _ _ _ _ _ _).mp h |>.2.2
              · exact absurd h (by simp)
        | perClass l =>
          rcases hL : l[1]? with _ | target
          · refine ⟨probs, p, excEvents "IndexError", rfl, hI,
              by simp [predictionBranch, hE, hI, hS, hL],
              fun e' he' => by simp at he', fun vals base data hmem => ?_⟩
            simp [excEvents] at hmem
          · rcases hT : target[0]? with _ | vals0
            · refine ⟨probs, p, RenderEvent.stWrite "**Why did the model make this prediction?**"
                  :: excEvents "IndexError", rfl, hI,
                by simp [predictionBranch, hE, hI, hS, hL, hT],
                fun e' he' => by simp at he', fun vals base data hmem => ?_⟩
              simp [excEvents] at hmem
            · rcases hB : m.expected_value[1]? with _ | base0
              · refine ⟨probs, p, RenderEvent.stWrite "**Why did the model make this prediction?**"
                    :: excEvents "IndexError", rfl, hI,
                  by simp [predictionBranch, hE, hI, hS, hL, hT, hB],
                  fun e' he' => by simp at he', fun vals base data hmem => ?_⟩
                simp [excEvents] at hmem
              · refine ⟨probs, p,
                  [.stWrite "**Why did the model make this prediction?**",
                   .shapWaterfall vals0 base0 (input_data_display f), .pyplot], rfl, hI,
                  by simp [predictionBranch, hE, hI, hS, hL, hT, hB],
                  fun e' he' => by simp at he', fun vals base data hmem => ?_⟩
                simp only [List.mem_cons, List.not_mem_nil, or_false] at hmem
                rcases hmem with h | h | h
                · exact absurd h (by simp)
                · exact (RenderEvent.shapWaterfall.injEq _ _ _ _ _ _).mp h |>.2.2
                · exact absurd h (by simp)

/-! ### The claims -/

/-- Claim C1: the feature vector passed to inference has exactly ten
components, assembled in the fixed column order minimum platelet count,
RISS, minimum systolic blood pressure, maximum BUN, maximum temperature,
age, renal indicator, invasive-line flag, mechanical-ventilation flag,
SOFA score — for every assignment of the ten form inputs, the assembled
record places each input at that position and no other. -/
theorem C1_feature_vector_order (f : FormInputs) :
    (input_data f).length = 10 ∧
    (input_data f).get? 0 = some ("platelets_min", f.platelets) ∧
    (input_data f).get? 1 = some ("riss", f.riss) ∧
    (input_data f).get? 2 = some ("sbp_min", f.sbp) ∧
    (input_data f).get? 3 = some ("bun_max", f.bun) ∧
    (input_data f).get? 4 = some ("temperature_max", f.temp) ∧
    (input_data f).get? 5 = some ("admission_age", f.age) ∧
    (input_data f).get? 6 = some ("renal", renal f) ∧
    (input_data f).get? 7 = some ("invasive_line_1stday", invasive_line f) ∧
    (input_data f).get? 8 = some ("mechvent", mech_vent f) ∧
    (input_data f).get? 9 = some ("sofa_1stday", f.sofa) :=
  ⟨rfl, rfl, rfl, rfl, rfl, rfl, rfl, rfl, rfl, rfl, rfl⟩

/-- Claim C2: the predicted probability `p` in `[0,1]` is mapped to exactly
one of three ordinal risk tiers by the fixed thresholds 0.2 and 0.5: Low
iff `p < 0.2`, Moderate iff `0.2 ≤ p < 0.5`, High iff `p ≥ 0.5`. -/
theorem C2_risk_tier_thresholds (p : ℚ) (h0 : 0 ≤ p) (h1 : p ≤ 1) :
    (risk_label p = "Low Risk" ↔ p < 0.2) ∧
    (risk_label p = "Moderate Risk" ↔ 0.2 ≤ p ∧ p < 0.5) ∧
    (risk_label p = "High Risk" ↔ 0.5 ≤ p) :=
  ⟨risk_label_low_iff p, risk_label_moderate_iff p, risk_label_high_iff p⟩

/-- Witness for C2 at the concrete probability 0.3. -/
theorem C2_risk_tier_thresholds_witness :
    (risk_label 0.3 = "Low Risk" ↔ (0.3 : ℚ) < 0.2) ∧
    (risk_label 0.3 = "Moderate Risk" ↔ (0.2 : ℚ) ≤ 0.3 ∧ (0.3 : ℚ) < 0.5) ∧
    (risk_label 0.3 = "High Risk" ↔ (0.5 : ℚ) ≤ 0.3) :=
  C2_risk_tier_thresholds 0.3 (by norm_num) (by norm_num)

/-- Claim C4: each of the three binary-indicator fields (renal comorbidity,
invasive line, mechanical ventilation) is encoded as exactly 1 when the
selection is "Yes" and exactly 0 when the selection is "No", for every
combination of selections. -/
theorem C4_binary_indicator_encoding (f : FormInputs) :
    (f.renal_input = "Yes" → renal f = 1) ∧
    (f.renal_input = "No" → renal f = 0) ∧
    (f.inv_line_input = "Yes" → invasive_line f = 1) ∧
    (f.inv_line_input = "No" → invasive_line f = 0) ∧
    (f.mech_vent_input = "Yes" → mech_vent f = 1) ∧
    (f.mech_vent_input = "No" → mech_vent f = 0) := by
  refine ⟨fun h => ?_, fun h => ?_, fun h => ?_, fun h => ?_, fun h => ?_, fun h => ?_⟩ <;>
    simp [renal, invasive_line, mech_vent, h]

/-- Witness for C4: a concrete form state selecting Yes for renal history,
No for invasive line, Yes for mechanical ventilation. -/
theorem C4_binary_indicator_encoding_witness :
    renal fDemo = 1 ∧ invasive_line fDemo = 0 ∧ mech_vent fDemo = 1 :=
  ⟨(C4_binary_indicator_encoding fDemo).1 rfl,
   (C4_binary_indicator_encoding fDemo).2.2.2.1 rfl,
   (C4_binary_indicator_encoding fDemo).2.2.2.2.1 rfl⟩

/-- Claim C8: for every probability `p`, the three display artifacts agree
on the same tier: the label is "Low Risk", the color green and the success
message shown iff `p < 0.2`; the label "Moderate Risk", the color #ffcc00
and the warning message iff `0.2 ≤ p < 0.5`; the label "High Risk", the
color red and the error message iff `p ≥ 0.5` — even though the
label/color use `≥` comparisons and the advisory message `<` comparisons. -/
theorem C8_display_artifacts_agree (p : ℚ) :
    (risk_label p = "Low Risk" ↔ color p = "green") ∧
    (risk_label p = "Low Risk" ↔
      threshold_message p =
        .stSuccess "The model predicts a low probability of developing MODS.") ∧
    (risk_label p = "Low Risk" ↔ p < 0.2) ∧
    (risk_label p = "Moderate Risk" ↔ color p = "#ffcc00") ∧
    (risk_label p = "Moderate Risk" ↔
      threshold_message p =
        .stWarning "The model predicts a moderate probability. Clinical monitoring advised.") ∧
    (risk_label p = "Moderate Risk" ↔ 0.2 ≤ p ∧ p < 0.5) ∧
    (risk_label p = "High Risk" ↔ color p = "red") ∧
    (risk_label p = "High Risk" ↔
      threshold_message p =
        .stError "The model predicts a high probability. Intensive monitoring required.") ∧
    (risk_label p = "High Risk" ↔ 0.5 ≤ p) :=
  ⟨(risk_label_low_iff p).trans (color_green_iff p).symm,
   (risk_label_low_iff p).trans (threshold_message_success_iff p).symm,
   risk_label_low_iff p,
   (risk_label_moderate_iff p).trans (color_yellow_iff p).symm,
   (risk_label_moderate_iff p).trans (threshold_message_warning_iff p).symm,
   risk_label_moderate_iff p,
   (risk_label_high_iff p).trans (color_red_iff p).symm,
   (risk_label_high_iff p).trans (threshold_message_error_iff p).symm,
   risk_label_high_iff p⟩

/-- Claim C3: for every prediction, `predict_proba` is invoked exactly
once, and the displayed probability is the single scalar taken from that
the output of that one call at row 0, positive-class column 1. -/
theorem C3_single_inference_call (m : Model) (f : FormInputs) :
    (predictionBranch m f).2.countP LibCall.isPredictProba = 1 ∧
    displayedProb (predictionBranch m f).1 =
      (m.predict_proba (input_data f)).toOption.bind
        (fun probs => (probs[0]?).bind (fun row => row[1]?)) := by
  rcases predictionBranch_spec m f with
    ⟨e, hE, hP⟩ | ⟨probs, hE, hI, hP⟩ | ⟨probs, p, rest, hE, hI, hP, _, _⟩
  · rw [hP, hE]
    simp [excEvents, LibCall.isPredictProba, Except.toOption]
  · rw [hP, hE]
    simp [excEvents, LibCall.isPredictProba, Except.toOption, hI]
  · rw [hP, hE]
    simp [resultEvents, LibCall.isPredictProba, Except.toOption, hI]

/-- Claim C5: this variant applies no scaling: the assembled feature
record holds exactly the raw widget values (the binary selections already
encoded as 0/1), in order, and inference receives that record unchanged. -/
theorem C5_no_scaling (m : Model) (f : FormInputs) :
    (predictionBranch m f).2.head? = some (.predictProba (input_data f)) ∧
    (input_data f).map Prod.snd =
      [f.platelets, f.riss, f.sbp, f.bun, f.temp, f.age,
       renal f, invasive_line f, mech_vent f, f.sofa] := by
  refine ⟨?_, rfl⟩
  rcases predictionBranch_spec m f with
    ⟨e, hE, hP⟩ | ⟨probs, hE, hI, hP⟩ | ⟨probs, p, rest, hE, hI, hP, _, _⟩ <;>
    simp [hP]

/-- Claim C6: every exception raised by the inference or attribution
libraries inside the prediction branch is caught and surfaced as the
displayed error message (followed only by the debug hint); no library
exception escapes — the branch is a total function into rendered events. -/
theorem C6_library_exceptions_caught (m : Model) (f : FormInputs) (e : String) :
    (m.predict_proba (input_data f) = .error e →
      (predictionBranch m f).1 = excEvents e) ∧
    (∀ probs p, m.predict_proba (input_data f) = .ok probs →
      (probs[0]?).bind (fun row => row[1]?) = some p →
      m.shap_values (input_data f) = .error e →
      (predictionBranch m f).1 = resultEvents p ++ excEvents e) := by
  constructor
  · intro hE
    rcases predictionBranch_spec m f with
      ⟨e', hE', hP⟩ | ⟨probs, hE', hI, hP⟩ | ⟨probs, p, rest, hE', hI, hP, _, _⟩
    · rw [hE] at hE'
      injection hE' with h
      rw [hP, h]
    · rw [hE] at hE'
      exact absurd hE' (by simp)
    · rw [hE] at hE'
      exact absurd hE' (by simp)
  · intro probs p hE hI hS
    rcases predictionBranch_spec m f with
      ⟨e', hE', hP⟩ | ⟨probs', hE', hI', hP⟩ | ⟨probs', p', rest, hE', hI', hP, hErr, _⟩
    · rw [hE] at hE'
      exact absurd hE' (by simp)
    · rw [hE] at hE'
      injection hE' with h
      rw [← h] at hI'
      rw [hI] at hI'
      exact absurd hI' (by simp)
    · rw [hE] at hE'
      injection hE' with h
      rw [← h] at hI'
      rw [hI] at hI'
      injection hI' with h2
      rw [hP, hErr e hS, h2]

/-- Witness for C6: a model whose `predict_proba` raises `ValueError`
renders exactly the error message and debug hint of the handler. -/
theorem C6_library_exceptions_caught_witness :
    (predictionBranch mFail fDemo).1 = excEvents "ValueError" :=
  (C6_library_exceptions_caught mFail fDemo "ValueError").1 rfl

/-- Claim C10: the attribution computation receives exactly the feature
vector given to inference — every library call in the branch receives
`input_data` — while the display renaming produces the separate copy
`input_data_display` and leaves `input_data` (the assembly of the raw
inputs) unchanged; the waterfall plot is fed the renamed copy. -/
theorem C10_attribution_frame (m : Model) (f : FormInputs) :
    (∀ x, LibCall.predictProba x ∈ (predictionBranch m f).2 → x = input_data f) ∧
    (∀ x, LibCall.shapValues x ∈ (predictionBranch m f).2 → x = input_data f) ∧
    input_data_display f = (input_data f).map (fun cv => (display_names cv.1, cv.2)) ∧
    (∀ vals base data, RenderEvent.shapWaterfall vals base data ∈ (predictionBranch m f).1 →
        data = input_data_display f) := by
  rcases predictionBranch_spec m f with
    ⟨e, hE, hP⟩ | ⟨probs, hE, hI, hP⟩ | ⟨probs, p, rest, hE, hI, hP, hErr, hWf⟩
  · refine ⟨fun x hx => ?_, fun x hx => ?_, rfl, fun vals base data hmem => ?_⟩
    · rw [hP] at hx
      simpa using hx
    · rw [hP] at hx
      simp at hx
    · rw [hP] at hmem
      simp [excEvents] at hmem
  · refine ⟨fun x hx => ?_, fun x hx => ?_, rfl, fun vals base data hmem => ?_⟩
    · rw [hP] at hx
      simpa using hx
    · rw [hP] at hx
      simp at hx
    · rw [hP] at hmem
      simp [excEvents] at hmem
  · refine ⟨fun x hx => ?_, fun x hx => ?_, rfl, fun vals base data hmem => ?_⟩
    · rw [hP] at hx
      simpa using hx
    · rw [hP] at hx
      simpa using hx
    · rw [hP] at hmem
      rcases List.mem_append.mp hmem with h | h
      · exact absurd h (shapWaterfall_not_mem_resultEvents p vals base data)
      · exact hWf vals base data h

/-- Witness for C10: with the concrete well-behaved model, the attribution
call in the trace received exactly `input_data fDemo`. -/
theorem C10_attribution_frame_witness :
    LibCall.shapValues (input_data fDemo) ∈ (predictionBranch mDemo fDemo).2 ∧
    input_data fDemo = input_data fDemo :=
  ⟨by simp [predictionBranch, mDemo],
   (C10_attribution_frame mDemo fDemo).2.1 (input_data fDemo)
     (by simp [predictionBranch, mDemo])⟩

/-- Claim C9: if the model file could not be loaded (`load_model` returned
`None`), pressing the Predict button renders no prediction output and makes
no inference call: the output panel is left empty, because the prediction
branch requires a loaded model and the informational hint is shown only
when the button was not pressed. -/
theorem C9_missing_model_renders_nothing (f : FormInputs) :
    col2Render none true f = ([], []) ∧
    (∀ mo : Option Model, (col2Render mo false f).1 =
      [.stInfo "👈 Adjust patient parameters on the left and click \x27Predict\x27."]) := by
  refine ⟨rfl, fun mo => ?_⟩
  cases mo <;> rfl

/-- The body of `load_model` returns exactly the loadable disk contents
(`None` when the file is missing). -/
theorem load_model_fst (d : Option Model) : (load_model d).1 = d := by
  cases d <;> rfl

/-- With a warm cache holding `d`, cached reruns agree with uncached
reruns as long as the disk still holds `d`. -/
theorem cachedRuns_stable (d : Option Model) :
    ∀ disks : List (Option Model), (∀ x ∈ disks, x = d) →
      cachedRuns disks (some d) = uncachedRuns disks := by
  intro disks
  induction disks with
  | nil => intro _; rfl
  | cons x rest ih =>
    intro h
    have hx : x = d := h x (List.mem_cons_self x rest)
    have hrest : ∀ y ∈ rest, y = d := fun y hy => h y (List.mem_cons_of_mem x hy)
    simp [cachedRuns, uncachedRuns, hx, load_model_fst, ih hrest]

/-- Counterexample to claim C7 as stated: `load_model` is decorated with
`@st.cache_resource`, so the program does not behave identically to one
that reloads the model from disk on every evaluation — if the model file
is present on the first evaluation and missing on the second, the cached
program still returns the stale model while the reloading program returns
`None`. -/
theorem C7_counterexample :
    cachedRuns [some mDemo, none] none ≠ uncachedRuns [some mDemo, none] := by
  simp [cachedRuns, uncachedRuns, load_model]

/-- Claim C7 as amended: `load_model` is memoized by `st.cache_resource`;
the memoized program returns the same sequence of models as one that
reloads from disk on every evaluation whenever the disk contents stay
unchanged across evaluations. -/
theorem C7_cache_refines_reload_on_stable_disk (disks : List (Option Model))
    (d : Option Model) (h : ∀ x ∈ disks, x = d) :
    cachedRuns disks none = uncachedRuns disks := by
  cases disks with
  | nil => rfl
  | cons x rest =>
    have hx : x = d := h x (List.mem_cons_self x rest)
    have hrest : ∀ y ∈ rest, y = d := fun y hy => h y (List.mem_cons_of_mem x hy)
    simp [cachedRuns, uncachedRuns, load_model_fst, hx,
      cachedRuns_stable d rest hrest]

/-- Witness for amended C7: two reruns over an unchanged disk agree with
reloading each time. -/
theorem C7_cache_refines_reload_witness :
    cachedRuns [some mDemo, some mDemo] none = uncachedRuns [some mDemo, some mDemo] :=
  C7_cache_refines_reload_on_stable_disk [some mDemo, some mDemo] (some mDemo) (by simp)

end TraumaMods
